import Mathlib

/-!
Shallow embedding of the herald DHCPv4 client core (src/src/v4/handler.rs,
src/src/v4/message.rs, src/src/client.rs).

Machine integers are modelled as `Nat` with explicit `% 2 ^ w` where overflow
matters.  `&mut self` methods of `DhcpV4Handler` become explicit state
passing: each returns the updated handler together with `Except HeraldError
Action`, so that field mutations performed before an early `?` return persist,
exactly as in Rust.

The wire codec used by the handler comes from the external crate `dhcproto`,
whose source is not part of this repository; its encoder/decoder and
`v4::Message::default()` are modelled from the specification (§4.1: RFC 2131
fixed header, magic cookie `63 82 53 63`, TLV options terminated by 255,
typed option constraints) where noted below.
-/

namespace Herald

/-- IPv4 address, as its 32-bit numeric value. -/
abbrev Ipv4Addr := Nat

/-- Builds the 32-bit value of the dotted quad `a.b.c.d`. -/
def mkIp (a b c d : Nat) : Ipv4Addr :=
  ((a % 256 * 256 + b % 256) * 256 + c % 256) * 256 + d % 256

/-- Mirrors dhcproto `v4::DhcpOption` restricted to the option codes the core
emits or consumes (spec §4.1/§4.3); unknown codes are kept opaquely. -/
inductive DhcpOption where
  | messageType (t : Nat)
  | requestedIpAddress (ip : Ipv4Addr)
  | serverIdentifier (ip : Ipv4Addr)
  | subnetMask (mask : Ipv4Addr)
  | router (ips : List Ipv4Addr)
  | domainNameServer (ips : List Ipv4Addr)
  | addressLeaseTime (secs : Nat)
  | clientIdentifier (bytes : List Nat)
  | parameterRequestList (codes : List Nat)
  | unknown (code : Nat) (payload : List Nat)
  deriving Repr, DecidableEq

/-- Option code of each option, per RFC 2132. -/
def DhcpOption.code : DhcpOption → Nat
  | .messageType _ => 53
  | .requestedIpAddress _ => 50
  | .serverIdentifier _ => 54
  | .subnetMask _ => 1
  | .router _ => 3
  | .domainNameServer _ => 6
  | .addressLeaseTime _ => 51
  | .clientIdentifier _ => 61
  | .parameterRequestList _ => 55
  | .unknown c _ => c

/-- Map-like insertion keyed by option code (dhcproto `DhcpOptions::insert`):
an option with the same code is replaced, otherwise the option is appended. -/
def insertOpt (opts : List DhcpOption) (o : DhcpOption) : List DhcpOption :=
  match opts with
  | [] => [o]
  | p :: rest =>
    if p.code = o.code then o :: rest else p :: insertOpt rest o

/-- Mirrors dhcproto `v4::Message` as consumed by the handler (sname/file are
always zero in emitted messages and ignored by the core, so they are omitted). -/
structure Msg where
  opcode : Nat
  htype : Nat
  hops : Nat
  xid : Nat
  secs : Nat
  flags : Nat
  ciaddr : Ipv4Addr
  yiaddr : Ipv4Addr
  siaddr : Ipv4Addr
  giaddr : Ipv4Addr
  chaddr : List Nat
  opts : List DhcpOption
  deriving Repr, DecidableEq

/-- Mirrors dhcproto `DhcpOptions::get(code)`. -/
def Msg.getOpt (m : Msg) (code : Nat) : Option DhcpOption :=
  m.opts.find? (fun o => o.code == code)

/-- Flags value with only the broadcast bit (bit 15) set, per RFC 2131. -/
def broadcastBit : Nat := 32768

/-- Mirrors dhcproto `Flags::set_broadcast`. -/
def setBroadcast (f : Nat) : Nat := f ||| broadcastBit

/-- Mirrors dhcproto `Flags::broadcast()`: whether bit 15 is set. -/
def flagsBroadcast (f : Nat) : Bool := f.testBit 15

/-- Modelled from the spec: dhcproto `v4::Message::default()` is not under
src/ (external dependency).  Header fields default to zero; the flags default
carries the broadcast bit, as required by the spec (§4.1: the REQUEST, built
from the default message without an explicit set_flags, has the broadcast flag
set) and asserted by the repository's own test `test_build_dhcp_request`. -/
def Msg.defaultMsg : Msg :=
  { opcode := 0, htype := 0, hops := 0, xid := 0, secs := 0,
    flags := broadcastBit, ciaddr := 0, yiaddr := 0, siaddr := 0, giaddr := 0,
    chaddr := [], opts := [] }

/-- Mirrors `build_dhcp_discover` (src/src/v4/message.rs) up to the final
dhcproto encoding step: the `v4::Message` value the source constructs. -/
def build_dhcp_discover_msg (mac : List Nat) (xid : Nat) : Msg :=
  let m := { Msg.defaultMsg with
    opcode := 1, chaddr := mac, htype := 1, hops := 0, xid := xid,
    secs := 0, flags := setBroadcast 0 }
  let m := { m with opts := insertOpt m.opts (.messageType 1) }
  let m := { m with opts := insertOpt m.opts (.clientIdentifier (1 :: mac)) }
  { m with opts := insertOpt m.opts (.parameterRequestList [1, 3, 6, 15]) }

/-- Mirrors `build_dhcp_request` (src/src/v4/message.rs) up to the final
dhcproto encoding step: the `v4::Message` value the source constructs. -/
def build_dhcp_request_msg (mac : List Nat) (xid : Nat)
    (offered_ip server_ip : Ipv4Addr) : Msg :=
  let m := { Msg.defaultMsg with
    opcode := 1, chaddr := mac, htype := 1, xid := xid, ciaddr := 0 }
  let m := { m with opts := insertOpt m.opts (.messageType 3) }
  let m := { m with opts := insertOpt m.opts (.requestedIpAddress offered_ip) }
  let m := { m with opts := insertOpt m.opts (.serverIdentifier server_ip) }
  let m := { m with opts := insertOpt m.opts (.clientIdentifier (1 :: mac)) }
  { m with opts := insertOpt m.opts (.parameterRequestList [1, 3, 6, 15]) }

/-- Big-endian 16-bit serialization. -/
def be16 (n : Nat) : List Nat := [n / 256 % 256, n % 256]

/-- Big-endian 32-bit serialization. -/
def be32 (n : Nat) : List Nat :=
  [n / 16777216 % 256, n / 65536 % 256, n / 256 % 256, n % 256]

/-- Pads (or truncates) a byte list to exactly `len` bytes. -/
def padTo (len : Nat) (l : List Nat) : List Nat :=
  l.take len ++ List.replicate (len - l.length) 0

/-- Modelled from the spec (§4.1, RFC 2132 TLV): serialization of one option. -/
def encodeOption : DhcpOption → List Nat
  | .messageType t => [53, 1, t % 256]
  | .requestedIpAddress ip => 50 :: 4 :: be32 ip
  | .serverIdentifier ip => 54 :: 4 :: be32 ip
  | .subnetMask m => 1 :: 4 :: be32 m
  | .router ips => 3 :: 4 * ips.length % 256 :: (ips.map be32).flatten
  | .domainNameServer ips => 6 :: 4 * ips.length % 256 :: (ips.map be32).flatten
  | .addressLeaseTime s => 51 :: 4 :: be32 s
  | .clientIdentifier bs => 61 :: bs.length % 256 :: bs.map (· % 256)
  | .parameterRequestList cs => 55 :: cs.length % 256 :: cs.map (· % 256)
  | .unknown c payload => c % 256 :: payload.length % 256 :: payload.map (· % 256)

/-- Modelled from the spec: dhcproto's encoder (not under src/).  RFC 2131
fixed header (236 bytes), magic cookie, TLV options, End(255). -/
def encode (m : Msg) : List Nat :=
  [m.opcode % 256, m.htype % 256, m.chaddr.length % 256, m.hops % 256]
  ++ be32 m.xid ++ be16 m.secs ++ be16 m.flags
  ++ be32 m.ciaddr ++ be32 m.yiaddr ++ be32 m.siaddr ++ be32 m.giaddr
  ++ padTo 16 m.chaddr ++ List.replicate 64 0 ++ List.replicate 128 0
  ++ [99, 130, 83, 99]
  ++ (m.opts.map encodeOption).flatten ++ [255]

/-- Parses four bytes as an IPv4 address; fails on any other length
(typed option constraint, spec §4.1). -/
def ip4OfBytes : List Nat → Option Ipv4Addr
  | [a, b, c, d] => some (mkIp a b c d)
  | _ => none

/-- Parses a multiple-of-four byte list as a list of IPv4 addresses. -/
def ipsOfBytes : List Nat → Option (List Ipv4Addr)
  | [] => some []
  | a :: b :: c :: d :: rest => (ipsOfBytes rest).map (mkIp a b c d :: ·)
  | _ => none

/-- Modelled from the spec: typed parsing of one option payload.  Msg-Type's
payload must be a single byte in 1..=8 (spec §4.1); address-valued options
must have the right payload shape; unknown codes are preserved opaquely. -/
def parseOne (code : Nat) (payload : List Nat) : Option DhcpOption :=
  match code with
  | 53 => match payload with
    | [t] => if 1 ≤ t ∧ t ≤ 8 then some (.messageType t) else none
    | _ => none
  | 54 => (ip4OfBytes payload).map .serverIdentifier
  | 50 => (ip4OfBytes payload).map .requestedIpAddress
  | 1 => (ip4OfBytes payload).map .subnetMask
  | 3 => (ipsOfBytes payload).map .router
  | 6 => (ipsOfBytes payload).map .domainNameServer
  | 51 => (ip4OfBytes payload).map .addressLeaseTime
  | 61 => some (.clientIdentifier payload)
  | 55 => some (.parameterRequestList payload)
  | _ => some (.unknown code payload)

/-- Modelled from the spec: the option walk of dhcproto's decoder.  Stops at
End(255) or end of buffer, skips Pad(0), fails when a length byte would read
past the buffer end or a typed constraint fails; later duplicates replace
earlier ones (map semantics).  The fuel argument only bounds recursion and is
always supplied with at least the buffer length. -/
def parseOptsF : Nat → List DhcpOption → List Nat → Option (List DhcpOption)
  | _, acc, [] => some acc
  | 0, _, _ => none
  | _ + 1, acc, 255 :: _ => some acc
  | fuel + 1, acc, 0 :: rest => parseOptsF fuel acc rest
  | _ + 1, _, [_] => none
  | fuel + 1, acc, c :: len :: rest =>
    if len ≤ rest.length then
      match parseOne c (rest.take len) with
      | some o => parseOptsF fuel (insertOpt acc o) (rest.drop len)
      | none => none
    else none

/-- Decode failure (dhcproto `MalformedPacket` class of errors, spec §4.1). -/
inductive DecodeError where
  | malformed
  deriving Repr, DecidableEq

/-- Reads a big-endian 16-bit value at offset `i`. -/
def readBe16 (bs : List Nat) (i : Nat) : Nat :=
  (bs.getD i 0 % 256) * 256 + bs.getD (i + 1) 0 % 256

/-- Reads a big-endian 32-bit value at offset `i`. -/
def readBe32 (bs : List Nat) (i : Nat) : Nat :=
  readBe16 bs i * 65536 + readBe16 bs (i + 2)

/-- Modelled from the spec: dhcproto `v4::Message::decode` (not under src/).
Requires the 236-byte fixed header followed by the magic cookie, then parses
the TLV option area. -/
def decode (bs : List Nat) : Except DecodeError Msg :=
  if bs.length < 240 then .error .malformed
  else if (bs.drop 236).take 4 ≠ [99, 130, 83, 99] then .error .malformed
  else
    let optBytes := bs.drop 240
    match parseOptsF optBytes.length [] optBytes with
    | none => .error .malformed
    | some opts => .ok
      { opcode := bs.getD 0 0 % 256, htype := bs.getD 1 0 % 256,
        hops := bs.getD 3 0 % 256, xid := readBe32 bs 4,
        secs := readBe16 bs 8, flags := readBe16 bs 10,
        ciaddr := readBe32 bs 12, yiaddr := readBe32 bs 16,
        siaddr := readBe32 bs 20, giaddr := readBe32 bs 24,
        chaddr := ((bs.drop 28).take 16).take (bs.getD 2 0 % 256),
        opts := opts }

/-- Byte output of `build_dhcp_discover` (src/src/v4/message.rs): the
constructed message serialized by the (spec-modelled) encoder. -/
def build_dhcp_discover (mac : List Nat) (xid : Nat) : List Nat :=
  encode (build_dhcp_discover_msg mac xid)

/-- Byte output of `build_dhcp_request` (src/src/v4/message.rs). -/
def build_dhcp_request (mac : List Nat) (xid : Nat)
    (offered_ip server_ip : Ipv4Addr) : List Nat :=
  encode (build_dhcp_request_msg mac xid offered_ip server_ip)

/-- Mirrors `std::net::SocketAddr` restricted to IPv4. -/
structure SocketAddr where
  ip : Ipv4Addr
  port : Nat
  deriving Repr, DecidableEq

/-- Destination `255.255.255.255:67` parsed in `handle_init` and
`handle_requesting` (src/src/v4/handler.rs). -/
def broadcastAddr : SocketAddr := ⟨mkIp 255 255 255 255, 67⟩

/-- Mirrors `Lease` (src/src/client.rs); durations are in whole seconds
(`Duration::from_secs`). -/
structure Lease where
  offered_ip : Ipv4Addr
  subnet_mask : Option Ipv4Addr
  routers : Option (List Ipv4Addr)
  dns_servers : Option (List Ipv4Addr)
  lease_duration : Option Nat
  server_identifier : Option Ipv4Addr
  deriving Repr, DecidableEq

/-- Mirrors `Action` (src/src/client.rs); `Wait` carries whole seconds. -/
inductive Action where
  | Send (packet : List Nat) (dst : SocketAddr)
  | StoreLease (l : Lease)
  | Wait (secs : Nat)
  | Exit
  deriving Repr, DecidableEq

/-- Mirrors `Event` (src/src/client.rs). -/
inductive Event where
  | PacketReceived (data : List Nat)
  | Timeout
  deriving Repr, DecidableEq

/-- Mirrors `HeraldError` (src/src/error.rs) restricted to the variants the
state machine produces; the boxed source errors are coarsened to strings. -/
inductive HeraldError where
  | Protocol (e : String)
  | Critical (s : String)
  deriving Repr, DecidableEq

/-- Mirrors `DhcpV4State` (src/src/v4/handler.rs). -/
inductive DhcpV4State where
  | Init
  | Selecting
  | Requesting
  | Bound
  deriving Repr, DecidableEq

/-- Mirrors `DhcpV4Handler` (src/src/v4/handler.rs).  The extra `rng` field
models the ambient randomness stream consumed by the two `rand::random()`
calls (at construction and on NAK restart); each draw takes the head of the
stream, reduced to a 32-bit value. -/
structure DhcpV4Handler where
  state : DhcpV4State
  mac_address : List Nat
  xid : Nat
  offer : Option Msg
  rng : List Nat
  deriving Repr, DecidableEq

/-- Models one `rand::random::<u32>()` draw from the handler's stream. -/
def freshRandom (h : DhcpV4Handler) : Nat × DhcpV4Handler :=
  (h.rng.headD 0 % 4294967296, { h with rng := h.rng.tail })

/-- Mirrors `DhcpV4Handler::new` (src/src/v4/handler.rs): state Init, no
stored offer, a randomly drawn xid. -/
def DhcpV4Handler.new (mac : List Nat) (rng : List Nat) : DhcpV4Handler :=
  { state := .Init, mac_address := mac, xid := rng.headD 0 % 4294967296,
    offer := none, rng := rng.tail }

/-- Mirrors `DhcpV4Handler::handle_init` (src/src/v4/handler.rs): enter
Selecting and broadcast a DISCOVER.  Building the packet and parsing the
literal broadcast address cannot fail, so the result is always `ok`. -/
def handle_init (h : DhcpV4Handler) :
    DhcpV4Handler × Except HeraldError Action :=
  let h := { h with state := .Selecting }
  (h, .ok (.Send (build_dhcp_discover h.mac_address h.xid) broadcastAddr))

/-- Mirrors the server-identifier extraction in
`DhcpV4Handler::handle_requesting` (`opts().get(ServerIdentifier).and_then`). -/
def getServerId (m : Msg) : Option Ipv4Addr :=
  match m.getOpt 54 with
  | some (.serverIdentifier ip) => some ip
  | _ => none

/-- Mirrors `DhcpV4Handler::handle_requesting` (src/src/v4/handler.rs):
with a stored offer, broadcast a REQUEST built from its yiaddr and
server identifier; a missing server identifier is a `Protocol` error and a
missing offer a `Critical` error. -/
def handle_requesting (h : DhcpV4Handler) :
    DhcpV4Handler × Except HeraldError Action :=
  match h.offer with
  | some offer =>
    match getServerId offer with
    | none => (h, .error (.Protocol "No server identifier in offer"))
    | some server_id =>
      (h, .ok (.Send (build_dhcp_request h.mac_address h.xid offer.yiaddr server_id)
        broadcastAddr))
  | none => (h, .error (.Critical "No offer available for request"))

/-- Mirrors `DhcpV4Handler::handle_selecting` (src/src/v4/handler.rs).  On a
matching-xid OFFER the offer is stored and the state set to Requesting before
delegating to `handle_requesting`; any other packet yields `Wait(5 s)`;
Timeout re-enters Init. -/
def handle_selecting (h : DhcpV4Handler) (ev : Event) :
    DhcpV4Handler × Except HeraldError Action :=
  match ev with
  | .PacketReceived data =>
    match decode data with
    | .error _ => (h, .error (.Protocol "decode error"))
    | .ok msg =>
      if msg.xid = h.xid then
        match msg.getOpt 53 with
        | some (.messageType 2) =>
          let h := { h with offer := some msg, state := .Requesting }
          handle_requesting h
        | _ => (h, .ok (.Wait 5))
      else (h, .ok (.Wait 5))
  | .Timeout =>
    let h := { h with state := .Init }
    handle_init h

/-- Mirrors `DhcpV4Handler::extract_lease_info` (src/src/v4/handler.rs);
always succeeds in the source (it only ever returns `Ok`). -/
def extract_lease_info (m : Msg) : Lease :=
  { offered_ip := m.yiaddr
  , subnet_mask := match m.getOpt 1 with
      | some (.subnetMask mask) => some mask
      | _ => none
  , routers := match m.getOpt 3 with
      | some (.router rs) => some rs
      | _ => none
  , dns_servers := match m.getOpt 6 with
      | some (.domainNameServer ds) => some ds
      | _ => none
  , lease_duration := match m.getOpt 51 with
      | some (.addressLeaseTime secs) => some secs
      | _ => none
  , server_identifier := getServerId m }

/-- Mirrors `DhcpV4Handler::handle_requesting_response`
(src/src/v4/handler.rs): ACK stores the lease and enters Bound; NAK re-enters
Init with a fresh xid and cleared offer; anything else waits; Timeout resends
the REQUEST. -/
def handle_requesting_response (h : DhcpV4Handler) (ev : Event) :
    DhcpV4Handler × Except HeraldError Action :=
  match ev with
  | .PacketReceived data =>
    match decode data with
    | .error _ => (h, .error (.Protocol "decode error"))
    | .ok msg =>
      if msg.xid = h.xid then
        match msg.getOpt 53 with
        | some (.messageType 5) =>
          let lease := extract_lease_info msg
          ({ h with state := .Bound }, .ok (.StoreLease lease))
        | some (.messageType 6) =>
          let h := { h with state := .Init, offer := none }
          let (x, h) := freshRandom h
          handle_init { h with xid := x }
        | _ => (h, .ok (.Wait 5))
      else (h, .ok (.Wait 5))
  | .Timeout => handle_requesting h

/-- Mirrors `DhcpStateMachine::handle_event` for `DhcpV4Handler`
(src/src/v4/handler.rs): dispatch on the current state; Bound always exits. -/
def handle_event (h : DhcpV4Handler) (ev : Event) :
    DhcpV4Handler × Except HeraldError Action :=
  match h.state with
  | .Init => handle_init h
  | .Selecting => handle_selecting h ev
  | .Requesting => handle_requesting_response h ev
  | .Bound => (h, .ok .Exit)

/-- Feeds a sequence of events through the handler, collecting the results. -/
def run (h : DhcpV4Handler) (evs : List Event) :
    DhcpV4Handler × List (Except HeraldError Action) :=
  match evs with
  | [] => (h, [])
  | ev :: rest =>
    let (h', r) := handle_event h ev
    let (h'', rs) := run h' rest
    (h'', r :: rs)

/-- Action/error tape of a run. -/
def runActions (h : DhcpV4Handler) (evs : List Event) :
    List (Except HeraldError Action) :=
  (run h evs).2

/-- Contexts reachable from a freshly constructed handler by some sequence of
`handle_event` calls. -/
def Reachable (h : DhcpV4Handler) : Prop :=
  ∃ mac rng evs, (run (DhcpV4Handler.new mac rng) evs).1 = h

set_option maxRecDepth 10000

instance {ε α : Type} [DecidableEq ε] [DecidableEq α] : DecidableEq (Except ε α) :=
  fun a b =>
    match a, b with
    | .ok x, .ok y =>
      if h : x = y then .isTrue (by rw [h]) else .isFalse (by intro hc; cases hc; exact h rfl)
    | .error x, .error y =>
      if h : x = y then .isTrue (by rw [h]) else .isFalse (by intro hc; cases hc; exact h rfl)
    | .ok _, .error _ => .isFalse (by intro hc; cases hc)
    | .error _, .ok _ => .isFalse (by intro hc; cases hc)

/-- Canonical test MAC `00:0c:29:a8:92:f4` (spec §8). -/
def macA : List Nat := [0, 12, 41, 168, 146, 244]

/-- Server-originated message skeleton used to build concrete test packets. -/
def serverMsg (xid : Nat) (yiaddr : Ipv4Addr) (opts : List DhcpOption) : Msg :=
  { opcode := 2, htype := 1, hops := 0, xid := xid, secs := 0, flags := 0,
    ciaddr := 0, yiaddr := yiaddr, siaddr := 0, giaddr := 0, chaddr := [],
    opts := opts }

/-- Decoded form of a matching-xid OFFER that lacks option 54. -/
def offerNoSidMsg : Msg := serverMsg 17 (mkIp 192 168 1 100) [.messageType 2]

/-- Wire form of `offerNoSidMsg`. -/
def offerNoSidPkt : List Nat := encode offerNoSidMsg

/-- Decoded form of a well-formed OFFER (with option 54) carrying xid 17. -/
def offerMsgA : Msg :=
  serverMsg 17 (mkIp 192 168 1 100) [.messageType 2, .serverIdentifier (mkIp 192 168 1 1)]

/-- Wire form of `offerMsgA`. -/
def offerPktA : List Nat := encode offerMsgA

/-- Decoded form of an ACK with server identifier and lease time, xid 17. -/
def ackMsgA : Msg :=
  serverMsg 17 (mkIp 192 168 1 100)
    [.messageType 5, .serverIdentifier (mkIp 192 168 1 1), .addressLeaseTime 3600]

/-- Wire form of `ackMsgA`. -/
def ackPktA : List Nat := encode ackMsgA

/-- Wire form of an ACK carrying only Msg-Type, with yiaddr 0.0.0.0, xid 17. -/
def ackBarePkt : List Nat := encode (serverMsg 17 0 [.messageType 5])

/-- Decoded form of an ACK whose Address-Lease-Time is 0xFFFFFFFF, xid 17. -/
def ackInfiniteMsg : Msg :=
  serverMsg 17 (mkIp 192 168 1 100) [.messageType 5, .addressLeaseTime 4294967295]

/-- Wire form of `ackInfiniteMsg`. -/
def ackInfinitePkt : List Nat := encode ackInfiniteMsg

/-- Wire form of a NAK carrying xid 17. -/
def nakPkt : List Nat := encode (serverMsg 17 0 [.messageType 6])

/-- Wire form of a well-formed OFFER carrying the non-matching xid 99. -/
def offerWrongXidPkt : List Nat :=
  encode (serverMsg 99 (mkIp 192 168 1 100) [.messageType 2, .serverIdentifier (mkIp 192 168 1 1)])

/-- Handler sitting in Selecting with xid 17. -/
def hSel17 : DhcpV4Handler := ⟨.Selecting, macA, 17, none, []⟩

/-- Handler sitting in Requesting with xid 17 and a stored offer. -/
def hReq17 : DhcpV4Handler := ⟨.Requesting, macA, 17, some offerMsgA, [1]⟩

/-- Handler sitting in Init with xid 17. -/
def hInit17 : DhcpV4Handler := ⟨.Init, macA, 17, none, []⟩

theorem handle_requesting_fst (h : DhcpV4Handler) : (handle_requesting h).1 = h := by
  unfold handle_requesting
  cases h.offer with
  | none => rfl
  | some o => cases hs : getServerId o <;> simp [hs]

theorem handle_requesting_no_storelease (h : DhcpV4Handler) (l : Lease) :
    (handle_requesting h).2 ≠ .ok (.StoreLease l) := by
  unfold handle_requesting
  cases h.offer with
  | none => simp
  | some o => cases hs : getServerId o <;> simp [hs]

theorem handle_init_no_storelease (h : DhcpV4Handler) (l : Lease) :
    (handle_init h).2 ≠ .ok (.StoreLease l) := by
  simp [handle_init]

theorem run_cons (h : DhcpV4Handler) (ev : Event) (rest : List Event) :
    run h (ev :: rest)
      = ((run (handle_event h ev).1 rest).1,
         (handle_event h ev).2 :: (run (handle_event h ev).1 rest).2) := rfl

/-- Invariant that actually holds of reachable contexts: an offer is stored
exactly in the Requesting and Bound states. -/
def offerInv (h : DhcpV4Handler) : Prop :=
  h.offer.isSome ↔ (h.state = .Requesting ∨ h.state = .Bound)

instance (h : DhcpV4Handler) : Decidable (offerInv h) := by
  unfold offerInv; infer_instance

theorem offerInv_new (mac rng : List Nat) : offerInv (DhcpV4Handler.new mac rng) := by
  simp [offerInv, DhcpV4Handler.new]

theorem offerInv_step (h : DhcpV4Handler) (ev : Event) (hinv : offerInv h) :
    offerInv (handle_event h ev).1 := by
  unfold offerInv at hinv ⊢
  unfold handle_event handle_selecting handle_requesting_response handle_init freshRandom
  repeat' split
  all_goals simp_all [handle_requesting_fst]

theorem offerInv_run (h : DhcpV4Handler) (evs : List Event) (hinv : offerInv h) :
    offerInv (run h evs).1 := by
  induction evs generalizing h with
  | nil => exact hinv
  | cons ev rest ih =>
    rw [run_cons]
    exact ih _ (offerInv_step h ev hinv)

theorem handle_selecting_offer (h : DhcpV4Handler) (d : List Nat) (msg : Msg)
    (hdec : decode d = .ok msg) (hxid : msg.xid = h.xid)
    (hmt : msg.getOpt 53 = some (.messageType 2)) :
    handle_selecting h (.PacketReceived d)
      = handle_requesting { h with offer := some msg, state := .Requesting } := by
  unfold handle_selecting
  simp only [hdec, hxid, if_pos, hmt]

theorem handle_selecting_no_storelease (h : DhcpV4Handler) (ev : Event) (l : Lease) :
    (handle_selecting h ev).2 ≠ .ok (.StoreLease l) := by
  unfold handle_selecting
  cases ev with
  | Timeout => exact handle_init_no_storelease _ l
  | PacketReceived d =>
    cases hd : decode d with
    | error e => simp [hd]
    | ok msg =>
      simp only [hd]
      by_cases hx : msg.xid = h.xid
      · simp only [hx, if_pos]
        split
        · exact handle_requesting_no_storelease _ l
        · simp
      · simp [hx]

/-- C1 (amended): in Selecting, a successfully decoded OFFER with matching xid
but no Server-Identifier option is stored anyway: the machine transitions to
Requesting and `handle_event` returns the Protocol error "No server identifier
in offer" instead of staying in Selecting with Wait(5 s). -/
theorem C1_offer_missing_server_id (h : DhcpV4Handler) (d : List Nat) (msg : Msg)
    (hst : h.state = .Selecting) (hdec : decode d = .ok msg)
    (hxid : msg.xid = h.xid) (hmt : msg.getOpt 53 = some (.messageType 2))
    (hsid : msg.getOpt 54 = none) :
    (handle_event h (.PacketReceived d)).1.state = .Requesting ∧
    (handle_event h (.PacketReceived d)).1.offer = some msg ∧
    (handle_event h (.PacketReceived d)).2
      = .error (.Protocol "No server identifier in offer") := by
  have hgs : getServerId msg = none := by unfold getServerId; rw [hsid]
  have he : handle_event h (.PacketReceived d)
      = handle_requesting { h with offer := some msg, state := .Requesting } := by
    unfold handle_event
    rw [hst]
    exact handle_selecting_offer h d msg hdec hxid hmt
  rw [he]
  unfold handle_requesting
  simp [hgs]

/-- C1 is false as stated: a concrete matching-xid OFFER without option 54 in
Selecting does change the state and does not return Wait(5 s). -/
theorem C1_counterexample :
    decode offerNoSidPkt = .ok offerNoSidMsg ∧
    offerNoSidMsg.xid = hSel17.xid ∧
    offerNoSidMsg.getOpt 53 = some (.messageType 2) ∧
    offerNoSidMsg.getOpt 54 = none ∧
    hSel17.state = .Selecting ∧
    (handle_event hSel17 (.PacketReceived offerNoSidPkt)).1.state ≠ .Selecting ∧
    (handle_event hSel17 (.PacketReceived offerNoSidPkt)).2 ≠ .ok (.Wait 5) := by
  decide

/-- C1 witness: the amended theorem applied at a concrete handler and packet. -/
theorem C1_witness :
    (handle_event hSel17 (.PacketReceived offerNoSidPkt)).1.state = .Requesting ∧
    (handle_event hSel17 (.PacketReceived offerNoSidPkt)).1.offer = some offerNoSidMsg ∧
    (handle_event hSel17 (.PacketReceived offerNoSidPkt)).2
      = .error (.Protocol "No server identifier in offer") :=
  C1_offer_missing_server_id hSel17 offerNoSidPkt offerNoSidMsg (by rfl) (by decide)
    (by decide) (by decide) (by decide)

/-- C2 (amended): for every reachable context, pending_offer is Some iff the
state is Requesting or Bound; the source never clears the offer on entering
Bound, so the claimed "iff Requesting" fails there. -/
theorem C2_pending_offer_iff (h : DhcpV4Handler) (hr : Reachable h) :
    h.offer.isSome ↔ (h.state = .Requesting ∨ h.state = .Bound) := by
  obtain ⟨mac, rng, evs, heq⟩ := hr
  subst heq
  exact offerInv_run _ _ (offerInv_new mac rng)

/-- C2 is false as stated: a full DORA run reaches a context in state Bound
whose pending offer is still Some. -/
theorem C2_counterexample :
    Reachable (run (DhcpV4Handler.new macA [17, 99])
      [.Timeout, .PacketReceived offerPktA, .PacketReceived ackPktA]).1 ∧
    (run (DhcpV4Handler.new macA [17, 99])
      [.Timeout, .PacketReceived offerPktA, .PacketReceived ackPktA]).1.offer.isSome ∧
    (run (DhcpV4Handler.new macA [17, 99])
      [.Timeout, .PacketReceived offerPktA, .PacketReceived ackPktA]).1.state ≠ .Requesting :=
  ⟨⟨macA, [17, 99], _, rfl⟩, by decide, by decide⟩

/-- C2 witness: the amended invariant applied at a concrete reachable context. -/
theorem C2_witness :
    (DhcpV4Handler.new macA [5]).offer.isSome ↔
      ((DhcpV4Handler.new macA [5]).state = .Requesting ∨
       (DhcpV4Handler.new macA [5]).state = .Bound) :=
  C2_pending_offer_iff (DhcpV4Handler.new macA [5]) ⟨macA, [5], [], rfl⟩

theorem handle_requesting_response_ack (h : DhcpV4Handler) (d : List Nat) (msg : Msg)
    (hdec : decode d = .ok msg) (hxid : msg.xid = h.xid)
    (hmt : msg.getOpt 53 = some (.messageType 5)) :
    handle_requesting_response h (.PacketReceived d)
      = ({ h with state := .Bound }, .ok (.StoreLease (extract_lease_info msg))) := by
  unfold handle_requesting_response
  simp only [hdec, hxid, if_pos, hmt]

theorem handle_requesting_response_nak (h : DhcpV4Handler) (d : List Nat) (msg : Msg)
    (hdec : decode d = .ok msg) (hxid : msg.xid = h.xid)
    (hmt : msg.getOpt 53 = some (.messageType 6)) :
    handle_requesting_response h (.PacketReceived d)
      = handle_init
          { h with
            state := .Init
            offer := none
            xid := h.rng.headD 0 % 4294967296
            rng := h.rng.tail } := by
  unfold handle_requesting_response freshRandom
  simp only [hdec, hxid, if_pos, hmt]

/-- C3 (amended): whenever handle_event returns StoreLease(l), the event was a
successfully decoded matching-xid ACK received in Requesting and l is exactly
extract_lease_info of that ACK — its offered_ip equals the ACK's yiaddr (which
may be zero) and its server_identifier equals the ACK's option 54 (which may
be absent); neither non-zero-ness nor presence is checked by the code. -/
theorem C3_storelease_from_ack (h : DhcpV4Handler) (ev : Event) (l : Lease)
    (hres : (handle_event h ev).2 = .ok (.StoreLease l)) :
    ∃ d msg, ev = .PacketReceived d ∧ h.state = .Requesting ∧
      decode d = .ok msg ∧ msg.xid = h.xid ∧
      msg.getOpt 53 = some (.messageType 5) ∧
      l = extract_lease_info msg ∧ l.offered_ip = msg.yiaddr ∧
      l.server_identifier = getServerId msg := by
  unfold handle_event at hres
  split at hres
  · exact absurd hres (handle_init_no_storelease h l)
  · exact absurd hres (handle_selecting_no_storelease h ev l)
  · rename_i hst
    unfold handle_requesting_response at hres
    split at hres
    · rename_i d
      split at hres
      · simp at hres
      · rename_i msg hd
        split at hres
        · rename_i hx
          split at hres
          · rename_i hmt
            simp only at hres
            have hl : l = extract_lease_info msg := by
              cases hres
              rfl
            subst hl
            exact ⟨d, msg, rfl, hst, hd, hx, hmt, rfl, rfl, rfl⟩
          · exact absurd hres (handle_init_no_storelease _ l)
          · simp at hres
        · simp at hres
    · exact absurd hres (handle_requesting_no_storelease h l)
  · simp at hres

/-- Lease produced from a bare ACK: zero offered_ip, no server identifier. -/
def bareLease : Lease :=
  { offered_ip := 0, subnet_mask := none, routers := none,
    dns_servers := none, lease_duration := none, server_identifier := none }

/-- C3 is false as stated: an ACK with yiaddr 0.0.0.0 and no option 54 reaches
the StoreLease branch and emits a lease with zero offered_ip and no
server_identifier. -/
theorem C3_counterexample :
    (handle_event hReq17 (.PacketReceived ackBarePkt)).2 = .ok (.StoreLease bareLease) ∧
    bareLease.offered_ip = 0 ∧
    bareLease.server_identifier = none := by
  decide

/-- C3 witness: the amended theorem applied at a concrete ACK. -/
theorem C3_witness :
    ∃ d msg, Event.PacketReceived ackPktA = .PacketReceived d ∧
      hReq17.state = .Requesting ∧ decode d = .ok msg ∧ msg.xid = hReq17.xid ∧
      msg.getOpt 53 = some (.messageType 5) ∧
      extract_lease_info ackMsgA = extract_lease_info msg ∧
      (extract_lease_info ackMsgA).offered_ip = msg.yiaddr ∧
      (extract_lease_info ackMsgA).server_identifier = getServerId msg :=
  C3_storelease_from_ack hReq17 (.PacketReceived ackPktA) (extract_lease_info ackMsgA)
    (by decide)

/-- C4 (amended): an ACK whose Address-Lease-Time option is 0xFFFFFFFF yields
a lease whose lease_duration is Some 4294967295 seconds: the source stores the
value as-is and does not represent the all-ones lease time as an unbounded
(None) duration. -/
theorem C4_max_lease_time (h : DhcpV4Handler) (d : List Nat) (msg : Msg)
    (hst : h.state = .Requesting) (hdec : decode d = .ok msg)
    (hxid : msg.xid = h.xid) (hmt : msg.getOpt 53 = some (.messageType 5))
    (hlt : msg.getOpt 51 = some (.addressLeaseTime 4294967295)) :
    (handle_event h (.PacketReceived d)).2
      = .ok (.StoreLease (extract_lease_info msg)) ∧
    (extract_lease_info msg).lease_duration = some 4294967295 := by
  have he : handle_event h (.PacketReceived d)
      = ({ h with state := .Bound }, .ok (.StoreLease (extract_lease_info msg))) := by
    unfold handle_event
    rw [hst]
    exact handle_requesting_response_ack h d msg hdec hxid hmt
  constructor
  · rw [he]
  · unfold extract_lease_info
    simp [hlt]

/-- C4 is false as stated: a concrete ACK with lease time 0xFFFFFFFF produces
a lease whose lease_duration is Some, not None. -/
theorem C4_counterexample :
    decode ackInfinitePkt = .ok ackInfiniteMsg ∧
    ackInfiniteMsg.getOpt 51 = some (.addressLeaseTime 4294967295) ∧
    (handle_event hReq17 (.PacketReceived ackInfinitePkt)).2
      = .ok (.StoreLease (extract_lease_info ackInfiniteMsg)) ∧
    (extract_lease_info ackInfiniteMsg).lease_duration ≠ none := by
  decide

/-- C4 witness: the amended theorem applied at a concrete ACK carrying
lease time 0xFFFFFFFF. -/
theorem C4_witness :
    (handle_event hReq17 (.PacketReceived ackInfinitePkt)).2
      = .ok (.StoreLease (extract_lease_info ackInfiniteMsg)) ∧
    (extract_lease_info ackInfiniteMsg).lease_duration = some 4294967295 :=
  C4_max_lease_time hReq17 ackInfinitePkt ackInfiniteMsg (by rfl) (by decide) (by decide)
    (by decide) (by decide)

/-- Requesting-state handler whose randomness stream holds 1. -/
def hNakA : DhcpV4Handler := ⟨.Requesting, macA, 17, some offerMsgA, [1]⟩

/-- Requesting-state handler whose randomness stream holds 2. -/
def hNakB : DhcpV4Handler := ⟨.Requesting, macA, 17, some offerMsgA, [2]⟩

/-- C5 is false as stated: two contexts identical in state, mac_address, xid
and pending_offer — but with different ambient randomness — produce different
action sequences on the same event sequence, because the NAK restart draws a
fresh random xid that ends up in the retransmitted DISCOVER bytes. -/
theorem C5_counterexample :
    hNakA.state = hNakB.state ∧
    hNakA.mac_address = hNakB.mac_address ∧
    hNakA.xid = hNakB.xid ∧
    hNakA.offer = hNakB.offer ∧
    runActions hNakA [.PacketReceived nakPkt]
      ≠ runActions hNakB [.PacketReceived nakPkt] := by
  decide

/-- C5 (amended): the state machine is deterministic once the randomness
source is included in the context: runs whose initial contexts agree on state,
mac_address, xid, pending_offer and the randomness stream produce identical
action sequences on identical event sequences. -/
theorem C5_deterministic (h1 h2 : DhcpV4Handler) (evs : List Event)
    (hs : h1.state = h2.state) (hm : h1.mac_address = h2.mac_address)
    (hx : h1.xid = h2.xid) (ho : h1.offer = h2.offer) (hr : h1.rng = h2.rng) :
    runActions h1 evs = runActions h2 evs := by
  have heq : h1 = h2 := by
    cases h1
    cases h2
    simp_all
  rw [heq]

/-- C5 witness: two syntactically distinct but componentwise equal contexts
yield the same action sequence. -/
theorem C5_witness :
    runActions hReq17 [.Timeout, .PacketReceived ackPktA]
      = runActions ⟨.Requesting, macA, 17, some offerMsgA, [1]⟩
          [.Timeout, .PacketReceived ackPktA] :=
  C5_deterministic hReq17 ⟨.Requesting, macA, 17, some offerMsgA, [1]⟩
    [.Timeout, .PacketReceived ackPktA] (by rfl) (by rfl) (by rfl) (by rfl) (by rfl)

/-- C6: the DHCPREQUEST (selecting form) message built by build_dhcp_request
has ciaddr 0.0.0.0, the broadcast flag set, and options Msg-Type(53)=3,
Requested-IP-Address(50)=offered_ip, Server-Identifier(54)=server_id,
Client-Id(61)=0x01 followed by the MAC, Parameter-Request-List(55)=[1,3,6,15];
the emitted bytes are the (spec-modelled) encoding of that message. -/
theorem C6_request_contents (mac : List Nat) (xid : Nat)
    (offered_ip server_id : Ipv4Addr) :
    (build_dhcp_request_msg mac xid offered_ip server_id).ciaddr = 0 ∧
    flagsBroadcast (build_dhcp_request_msg mac xid offered_ip server_id).flags = true ∧
    (build_dhcp_request_msg mac xid offered_ip server_id).getOpt 53
      = some (.messageType 3) ∧
    (build_dhcp_request_msg mac xid offered_ip server_id).getOpt 50
      = some (.requestedIpAddress offered_ip) ∧
    (build_dhcp_request_msg mac xid offered_ip server_id).getOpt 54
      = some (.serverIdentifier server_id) ∧
    (build_dhcp_request_msg mac xid offered_ip server_id).getOpt 61
      = some (.clientIdentifier (1 :: mac)) ∧
    (build_dhcp_request_msg mac xid offered_ip server_id).getOpt 55
      = some (.parameterRequestList [1, 3, 6, 15]) ∧
    build_dhcp_request mac xid offered_ip server_id
      = encode (build_dhcp_request_msg mac xid offered_ip server_id) := by
  have hb : flagsBroadcast broadcastBit = true := by decide
  exact ⟨rfl, hb, rfl, rfl, rfl, rfl, rfl, rfl⟩

/-- C7 (amended): from Requesting, a decoded NAK with matching xid restarts
the attempt: a fresh xid is drawn from the randomness source — the code does
NOT guarantee it differs from the old xid — the pending offer is cleared, and
the action is Send of a DISCOVER carrying the fresh xid to 255.255.255.255:67
(the machine re-enters Init and immediately moves on to Selecting). -/
theorem C7_nak_restart (h : DhcpV4Handler) (d : List Nat) (msg : Msg)
    (hst : h.state = .Requesting) (hdec : decode d = .ok msg)
    (hxid : msg.xid = h.xid) (hmt : msg.getOpt 53 = some (.messageType 6)) :
    (handle_event h (.PacketReceived d)).1.xid = h.rng.headD 0 % 4294967296 ∧
    (handle_event h (.PacketReceived d)).1.offer = none ∧
    (handle_event h (.PacketReceived d)).1.state = .Selecting ∧
    (handle_event h (.PacketReceived d)).2
      = .ok (.Send (build_dhcp_discover h.mac_address (h.rng.headD 0 % 4294967296))
          broadcastAddr) := by
  have he : handle_event h (.PacketReceived d)
      = handle_init
          { h with
            state := .Init
            offer := none
            xid := h.rng.headD 0 % 4294967296
            rng := h.rng.tail } := by
    unfold handle_event
    rw [hst]
    exact handle_requesting_response_nak h d msg hdec hxid hmt
  rw [he]
  unfold handle_init
  exact ⟨rfl, rfl, rfl, rfl⟩

/-- Requesting-state handler whose randomness stream will reproduce xid 17. -/
def hNakSame : DhcpV4Handler := ⟨.Requesting, macA, 17, some offerMsgA, [17]⟩

/-- C7 is false as stated: when the random draw happens to repeat the old
value, the regenerated xid equals the previous one, so X2 ≠ X1 is not
guaranteed (the rest of the restart behaves as claimed). -/
theorem C7_counterexample :
    decode nakPkt = .ok (serverMsg 17 0 [.messageType 6]) ∧
    hNakSame.state = .Requesting ∧
    hNakSame.xid = 17 ∧
    (handle_event hNakSame (.PacketReceived nakPkt)).1.offer = none ∧
    (handle_event hNakSame (.PacketReceived nakPkt)).1.xid = 17 ∧
    (handle_event hNakSame (.PacketReceived nakPkt)).2
      = .ok (.Send (build_dhcp_discover macA 17) broadcastAddr) := by
  decide

/-- Requesting-state handler whose randomness stream holds 99. -/
def hNak99 : DhcpV4Handler := ⟨.Requesting, macA, 17, some offerMsgA, [99]⟩

/-- C7 witness: the amended restart theorem applied at a concrete NAK. -/
theorem C7_witness :
    (handle_event hNak99 (.PacketReceived nakPkt)).1.xid
      = hNak99.rng.headD 0 % 4294967296 ∧
    (handle_event hNak99 (.PacketReceived nakPkt)).1.offer = none ∧
    (handle_event hNak99 (.PacketReceived nakPkt)).1.state = .Selecting ∧
    (handle_event hNak99 (.PacketReceived nakPkt)).2
      = .ok (.Send
          (build_dhcp_discover hNak99.mac_address (hNak99.rng.headD 0 % 4294967296))
          broadcastAddr) :=
  C7_nak_restart hNak99 nakPkt (serverMsg 17 0 [.messageType 6]) (by rfl) (by decide)
    (by decide) (by decide)

/-- C8 (amended): in every state other than Init, a packet whose decoded xid
differs from the context xid leaves the whole context unchanged, and in
Selecting and Requesting the action is Wait(5 s); in Init, by contrast, any
event — such a packet included — triggers the bootstrap transition to
Selecting, so the claim's "for every state" fails there. -/
theorem C8_stale_xid_no_transition (h : DhcpV4Handler) (d : List Nat) (msg : Msg)
    (hst : h.state ≠ .Init) (hdec : decode d = .ok msg) (hxid : msg.xid ≠ h.xid) :
    (handle_event h (.PacketReceived d)).1 = h ∧
    (h.state = .Selecting ∨ h.state = .Requesting →
      (handle_event h (.PacketReceived d)).2 = .ok (.Wait 5)) := by
  cases hs : h.state with
  | Init => exact absurd hs hst
  | Selecting =>
    have he : handle_event h (.PacketReceived d) = (h, .ok (.Wait 5)) := by
      unfold handle_event
      rw [hs]
      unfold handle_selecting
      simp only [hdec, if_neg hxid]
    rw [he]
    exact ⟨rfl, fun _ => rfl⟩
  | Requesting =>
    have he : handle_event h (.PacketReceived d) = (h, .ok (.Wait 5)) := by
      unfold handle_event
      rw [hs]
      unfold handle_requesting_response
      simp only [hdec, if_neg hxid]
    rw [he]
    exact ⟨rfl, fun _ => rfl⟩
  | Bound =>
    have he : handle_event h (.PacketReceived d) = (h, .ok .Exit) := by
      unfold handle_event
      rw [hs]
    rw [he]
    refine ⟨rfl, ?_⟩
    rintro (hc | hc) <;> simp [hs] at hc

/-- Decoded form of `offerWrongXidPkt`. -/
def offerWrongXidMsg : Msg :=
  serverMsg 99 (mkIp 192 168 1 100) [.messageType 2, .serverIdentifier (mkIp 192 168 1 1)]

/-- C8 is false as stated: in Init, a decoded packet with a non-matching xid
does cause a state transition (the Init → Selecting bootstrap). -/
theorem C8_counterexample :
    decode offerWrongXidPkt = .ok offerWrongXidMsg ∧
    offerWrongXidMsg.xid ≠ hInit17.xid ∧
    (handle_event hInit17 (.PacketReceived offerWrongXidPkt)).1.state ≠ hInit17.state := by
  decide

/-- C8 witness: the amended theorem applied in Selecting at a well-formed
OFFER with a stale xid. -/
theorem C8_witness :
    (handle_event hSel17 (.PacketReceived offerWrongXidPkt)).1 = hSel17 ∧
    (hSel17.state = .Selecting ∨ hSel17.state = .Requesting →
      (handle_event hSel17 (.PacketReceived offerWrongXidPkt)).2 = .ok (.Wait 5)) :=
  C8_stale_xid_no_transition hSel17 offerWrongXidPkt offerWrongXidMsg (by decide)
    (by decide) (by decide)

/-- Predicate matching exactly the NAK-restart branch of
handle_requesting_response: state Requesting and a decoded matching-xid NAK. -/
def isNakRestart (h : DhcpV4Handler) (ev : Event) : Bool :=
  decide (h.state = .Requesting) &&
    match ev with
    | .PacketReceived d =>
      match decode d with
      | .ok msg =>
        decide (msg.xid = h.xid) && decide (msg.getOpt 53 = some (.messageType 6))
      | .error _ => false
    | .Timeout => false

/-- C9: every handle_event call other than the NAK-restart branch leaves the
context xid unchanged, and the Timeout retransmissions — DISCOVER from
Selecting, REQUEST from Requesting — carry exactly the context's existing
xid in the rebuilt packet. -/
theorem C9_xid_discipline (h : DhcpV4Handler) (ev : Event)
    (hnak : isNakRestart h ev = false) :
    (handle_event h ev).1.xid = h.xid ∧
    (h.state = .Selecting → ev = .Timeout →
      (handle_event h ev).2
        = .ok (.Send (build_dhcp_discover h.mac_address h.xid) broadcastAddr)) ∧
    (h.state = .Requesting → ev = .Timeout → ∀ o sid, h.offer = some o →
      getServerId o = some sid →
      (handle_event h ev).2
        = .ok (.Send (build_dhcp_request h.mac_address h.xid o.yiaddr sid)
            broadcastAddr)) := by
  refine ⟨?_, ?_, ?_⟩
  · unfold isNakRestart at hnak
    unfold handle_event handle_selecting handle_requesting_response handle_init freshRandom
    repeat' split
    all_goals simp_all [handle_requesting_fst]
  · intro hs hev
    subst hev
    unfold handle_event
    rw [hs]
    rfl
  · intro hs hev o sid ho hsid
    subst hev
    unfold handle_event
    rw [hs]
    show (handle_requesting_response h .Timeout).2 = _
    unfold handle_requesting_response handle_requesting
    simp only [ho, hsid]

/-- C9 witness: a Timeout in Selecting retransmits the DISCOVER with the
unchanged xid. -/
theorem C9_witness :
    (handle_event hSel17 .Timeout).1.xid = hSel17.xid ∧
    (hSel17.state = .Selecting → Event.Timeout = .Timeout →
      (handle_event hSel17 .Timeout).2
        = .ok (.Send (build_dhcp_discover hSel17.mac_address hSel17.xid)
            broadcastAddr)) ∧
    (hSel17.state = .Requesting → Event.Timeout = .Timeout → ∀ o sid,
      hSel17.offer = some o → getServerId o = some sid →
      (handle_event hSel17 .Timeout).2
        = .ok (.Send (build_dhcp_request hSel17.mac_address hSel17.xid o.yiaddr sid)
            broadcastAddr)) :=
  C9_xid_discipline hSel17 .Timeout (by decide)

/-- C10: in state Init every event — a packet of undecodable bytes included —
is treated exactly like the synthetic bootstrap Timeout: the payload is never
decoded, no error is produced, the machine moves to Selecting and broadcasts
a DISCOVER to 255.255.255.255:67. -/
theorem C10_init_ignores_event (h : DhcpV4Handler) (ev : Event)
    (hst : h.state = .Init) :
    handle_event h ev
      = ({ h with state := .Selecting },
         .ok (.Send (build_dhcp_discover h.mac_address h.xid) broadcastAddr)) ∧
    handle_event h ev = handle_event h .Timeout := by
  have he : ∀ e : Event, handle_event h e
      = ({ h with state := .Selecting },
         .ok (.Send (build_dhcp_discover h.mac_address h.xid) broadcastAddr)) := by
    intro e
    unfold handle_event
    rw [hst]
    rfl
  exact ⟨he ev, (he ev).trans (he .Timeout).symm⟩

/-- C10 witness: in Init even the undecodable packet 0x00 0x01 0x02 yields the
bootstrap DISCOVER, with no decode attempt and no error. -/
theorem C10_witness :
    handle_event hInit17 (.PacketReceived [0, 1, 2])
      = ({ hInit17 with state := .Selecting },
         .ok (.Send (build_dhcp_discover hInit17.mac_address hInit17.xid)
           broadcastAddr)) ∧
    handle_event hInit17 (.PacketReceived [0, 1, 2])
      = handle_event hInit17 .Timeout :=
  C10_init_ignores_event hInit17 (.PacketReceived [0, 1, 2]) (by rfl)

end Herald
